import Mathlib

attribute [local semireducible] Rat.sub Rat.add Rat.mul Rat.inv Rat.ofScientific

/-!
Shallow embedding of the grbl-server repository (src/grbl_server.py,
src/macros.py, src/macros/*.py) for checking its natural-language
specification.  Machine coordinates are modelled as rationals (the Python
source uses IEEE floats; every claim checked here is about control flow,
field selection and exact arithmetic identities, not float rounding).
String operations are implemented structurally over character lists so
that concrete runs reduce inside the kernel.
-/

/-- Case-sensitive prefix test over character lists. -/
def prefixMatchCS : List Char → List Char → Bool
  | [], _ => true
  | _ :: _, [] => false
  | p :: ps, c :: cs => p == c && prefixMatchCS ps cs

/-- Python startswith. -/
def strStartsWith (s pfx : String) : Bool := prefixMatchCS pfx.toList s.toList

/-- Python endswith. -/
def strEndsWith (s sfx : String) : Bool :=
  prefixMatchCS sfx.toList.reverse s.toList.reverse

/-- Python str.split with a one-character separator: splitting the empty
text gives one empty piece, and every separator occurrence starts a new
piece. -/
def splitOnChar (c : Char) : List Char → List (List Char)
  | [] => [[]]
  | a :: rest =>
    match splitOnChar c rest with
    | [] => [[]]
    | h :: t => if a == c then [] :: h :: t else (a :: h) :: t

/-- String-valued split on a one-character separator. -/
def strSplitOnChar (c : Char) (s : String) : List String :=
  (splitOnChar c s.toList).map String.mk

/-- Python in-test for one character. -/
def strContains (s : String) (c : Char) : Bool := s.toList.contains c

/-- Python strip of surrounding whitespace, on a character list. -/
def pyStripList (l : List Char) : List Char :=
  ((l.dropWhile Char.isWhitespace).reverse.dropWhile Char.isWhitespace).reverse

/-- Python strip of surrounding whitespace. -/
def pyStrip (s : String) : String := String.mk (pyStripList s.toList)

/-- Python slicing s[n:]. -/
def strDrop (s : String) (n : ℕ) : String := String.mk (s.toList.drop n)

/-- Four-axis coordinate vector, the shape of the mpos/wpos/wco/g28 dicts
in grbl_server.py. -/
structure Vec4 where
  x : ℚ
  y : ℚ
  z : ℚ
  a : ℚ
deriving Repr, DecidableEq

def Vec4.zero : Vec4 := ⟨0, 0, 0, 0⟩

def Vec4.sub (u v : Vec4) : Vec4 := ⟨u.x - v.x, u.y - v.y, u.z - v.z, u.a - v.a⟩

/-- Numeric value of a list of decimal digit characters. -/
def digitsVal (ds : List Char) : ℕ :=
  ds.foldl (fun acc c => acc * 10 + (c.toNat - 48)) 0

/-- Embedding of Python float(s) for the plain decimal literals GRBL emits
(optional sign, integer part, optional fractional part).  Returns none on a
malformed literal, where Python float() raises ValueError. -/
def parseDecimal (s : String) : Option ℚ :=
  let cs := s.toList
  let signed : Bool × List Char :=
    match cs with
    | '-' :: t => (true, t)
    | '+' :: t => (false, t)
    | _ => (false, cs)
  let neg := signed.1
  let body := signed.2
  let ip := body.takeWhile Char.isDigit
  let rest := body.dropWhile Char.isDigit
  let val? : Option ℚ :=
    match rest with
    | [] => if ip.isEmpty then none else some ((digitsVal ip : ℚ))
    | '.' :: fr =>
      let fp := fr.takeWhile Char.isDigit
      let rest2 := fr.dropWhile Char.isDigit
      if rest2.isEmpty then
        if ip.isEmpty && fp.isEmpty then none
        else some ((digitsVal ip : ℚ) + (digitsVal fp : ℚ) / ((10 : ℚ) ^ fp.length))
      else none
    | _ => none
  val?.map (fun v => if neg then -v else v)

/-- Embedding of Python int(s) for plain optionally signed digit strings
(used for the Ov: override fields). -/
def parseIntStr (s : String) : Option ℤ :=
  let cs := s.toList
  let signed : Bool × List Char :=
    match cs with
    | '-' :: t => (true, t)
    | '+' :: t => (false, t)
    | _ => (false, cs)
  if signed.2.isEmpty || !(signed.2.all Char.isDigit) then none
  else some (if signed.1 then -(digitsVal signed.2 : ℤ) else (digitsVal signed.2 : ℤ))

/-- Coordinate at index i of a comma-split field: missing entries default
to 0 (the `float(coords[i]) if len(coords) > i else 0` pattern).  A
malformed entry raises in Python; the claims only involve well-formed
numerals, where this total embedding agrees. -/
def qAt (parts : List String) (i : ℕ) : ℚ :=
  match parts.get? i with
  | some s => (parseDecimal s).getD 0
  | none => 0

/-- Parse an x,y,z,a coordinate field; missing axes default to zero and
axes past the fourth are ignored (grbl_server.py coordinate dicts). -/
def parseVec4 (s : String) : Vec4 :=
  let ps := strSplitOnChar ',' s
  ⟨qAt ps 0, qAt ps 1, qAt ps 2, qAt ps 3⟩

/-- The MachineStatus dataclass of grbl_server.py. -/
structure MachineStatus where
  state : String
  mpos : Vec4
  wpos : Vec4
  wco : Vec4
  feed_override : ℤ
  spindle_override : ℤ
  feed_rate : ℚ
  spindle_speed : ℚ
deriving Repr, DecidableEq

def MachineStatus.initial : MachineStatus :=
  { state := "Unknown", mpos := Vec4.zero, wpos := Vec4.zero, wco := Vec4.zero
    feed_override := 100, spindle_override := 100, feed_rate := 0, spindle_speed := 0 }

/-- One field of a status report, as dispatched by the elif-chain of
GrblConnection._parse_status.  State components: the MachineStatus and the
wco_cached vector of the connection. -/
def parse_status_field (acc : MachineStatus × Vec4) (part : String) : MachineStatus × Vec4 :=
  let ms := acc.1
  let wco := acc.2
  if strStartsWith part "MPos:" then
    let coords := parseVec4 (strDrop part 5)
    ({ ms with mpos := coords, wpos := coords.sub wco }, wco)
  else if strStartsWith part "WCO:" then
    let w := parseVec4 (strDrop part 4)
    ({ ms with wpos := ms.mpos.sub w }, w)
  else if strStartsWith part "Ov:" then
    let ov := strSplitOnChar ',' (strDrop part 3)
    let f := match ov.get? 0 with
      | some s => (parseIntStr s).getD 100
      | none => 100
    let sp := match ov.get? 2 with
      | some s => (parseIntStr s).getD 100
      | none => 100
    ({ ms with feed_override := f, spindle_override := sp }, wco)
  else if strStartsWith part "FS:" then
    let fs := strSplitOnChar ',' (strDrop part 3)
    let f := qAt fs 0
    let sp := qAt fs 1
    ({ ms with feed_rate := f, spindle_speed := sp }, wco)
  else if strStartsWith part "F:" then
    ({ ms with feed_rate := (parseDecimal (strDrop part 2)).getD 0 }, wco)
  else
    acc

/-- The pipe-separated fields of a status report line, after stripping the
angle brackets (content = line[1:-1]; parts = content.split). -/
def statusParts (line : String) : List String :=
  (splitOnChar '|' ((line.toList.drop 1).dropLast)).map String.mk

/-- Embedding of GrblConnection._parse_status: the first field is the
machine state name, remaining fields update positions, overrides and
feed/speed.  Returns the new MachineStatus and the new wco_cached. -/
def parse_status (ms : MachineStatus) (wco : Vec4) (line : String) : MachineStatus × Vec4 :=
  let parts := statusParts line
  let ms1 := { ms with state := parts.headD "" }
  (parts.tail).foldl parse_status_field (ms1, wco)

/-- The wpos = mpos - wco relation of the spec, over the connection state
(MachineStatus plus cached wco). -/
def wposInv (ms : MachineStatus) (wco : Vec4) : Prop :=
  ms.wpos = ms.mpos.sub wco

instance (ms : MachineStatus) (wco : Vec4) : Decidable (wposInv ms wco) := by
  unfold wposInv; infer_instance

/-- Broadcast messages emitted while handling one serial line
(GrblConnection._handle_line and _parse_probe). -/
inductive Msg
  | serialRead (line : String)
  | statusMsg (st : MachineStatus)
  | responseMsg (line : String)
  | alarmMsg (code : String)
  | probeMsg (success : Bool) (p : Vec4)
deriving Repr, DecidableEq

/-- The mutable fields of GrblConnection touched by the read path: the
machine status, the settings dict, the cached WCO, the stored G28
position, and the ok/error response queue (pairs of kind and raw line,
exactly what _handle_line puts). -/
structure GrblState where
  status : MachineStatus
  settings : List (String × String)
  wco_cached : Vec4
  g28_pos : Vec4
  response_queue : List (String × String)
deriving Repr, DecidableEq

def GrblState.initial : GrblState :=
  { status := MachineStatus.initial, settings := [], wco_cached := Vec4.zero
    g28_pos := Vec4.zero, response_queue := [] }

/-- Dict assignment self.settings[key] = value (last write wins). -/
def setSetting (l : List (String × String)) (k v : String) : List (String × String) :=
  if l.any (fun p => p.1 == k) then l.map (fun p => if p.1 == k then (k, v) else p)
  else l ++ [(k, v)]

/-- Dict lookup self.settings.get(key). -/
def getSetting (l : List (String × String)) (k : String) : Option String :=
  (l.find? (fun p => p.1 == k)).map (fun p => p.2)

/-- Embedding of the probe-report regular expression match in
GrblConnection._parse_probe: prefix match of bracket, PRB, colon, one or
more non-colon characters (the comma-separated coordinates), colon, a
single digit flag, closing bracket. -/
def parsePRB (line : String) : Option (Vec4 × Bool) :=
  if strStartsWith line "[PRB:" then
    let body := line.toList.drop 5
    let coordCs := body.takeWhile (fun c => c ≠ ':')
    let rest := body.dropWhile (fun c => c ≠ ':')
    if coordCs.isEmpty then none
    else
      match rest with
      | ':' :: d :: ']' :: _ =>
        if d.isDigit then some (parseVec4 (String.mk coordCs), d == '1') else none
      | _ => none
  else none

/-- Python line.split with maxsplit one at the first equals sign. -/
def splitKV (line : String) : String × String :=
  let cs := line.toList
  (String.mk (cs.takeWhile (fun c => c ≠ '=')),
   String.mk ((cs.dropWhile (fun c => c ≠ '=')).drop 1))

/-- Embedding of GrblConnection._handle_line: classify one received line
by the source's if-chain, mutate the connection state, and emit the
broadcasts.  Status lines update the machine status; ok and error lines
are put on the response queue; alarms set the Alarm state; probe reports
are broadcast only; G28 and setting echoes update their caches; banners
and unknown lines are ignored. -/
def handle_line (st : GrblState) (line : String) : GrblState × List Msg :=
  let raw := Msg.serialRead line
  if strStartsWith line "<" && strEndsWith line ">" then
    let r := parse_status st.status st.wco_cached line
    ({ st with status := r.1, wco_cached := r.2 }, [raw, Msg.statusMsg r.1])
  else if line == "ok" then
    ({ st with response_queue := st.response_queue ++ [("ok", line)] }, [raw])
  else if strStartsWith line "error:" then
    ({ st with response_queue := st.response_queue ++ [("error", line)] },
     [raw, Msg.responseMsg line])
  else if strStartsWith line "ALARM:" then
    let code := if strContains line ':' then ((strSplitOnChar ':' line).get? 1).getD "" else "?"
    ({ st with status := { st.status with state := "Alarm" } }, [raw, Msg.alarmMsg code])
  else if strStartsWith line "[PRB:" then
    match parsePRB line with
    | some pr => (st, [raw, Msg.probeMsg pr.2 pr.1])
    | none => (st, [raw])
  else if strStartsWith line "[G28:" then
    ({ st with g28_pos := parseVec4 (String.mk ((line.toList.drop 5).dropLast)) }, [raw])
  else if strStartsWith line "$" && strContains line '=' then
    let kv := splitKV line
    ({ st with settings := setSetting st.settings kv.1 kv.2 }, [raw])
  else (st, [raw])

/-- A line that _handle_line routes to the response queue: not a status
report, and either the exact ok or an error-prefixed line. -/
def isTerminator (l : String) : Bool :=
  !(strStartsWith l "<" && strEndsWith l ">") && (l == "ok" || strStartsWith l "error:")

/-- The queue entry _handle_line makes for a terminator line. -/
def termEntry (l : String) : String × String :=
  (if l == "ok" then "ok" else "error", l)

/-- Embedding of the awaited response_queue.get() in send_command: absorb
parser lines in arrival order; the first line that lands an entry on the
(previously drained) queue completes the call; an exhausted arrival
stream is the 10-second deadline expiring. -/
def wait_response (st : GrblState) : List String → String
  | [] => "error:timeout"
  | l :: rest =>
    let st2 := (handle_line st l).1
    match st2.response_queue with
    | [] => wait_response st2 rest
    | item :: _ => item.2

/-- Result of one send_command call: the bytes written to the serial port
(none when not connected) and the returned result string. -/
structure SendOutcome where
  written : Option String
  result : String
deriving Repr, DecidableEq

/-- Default deadline of send_command, in seconds. -/
def SEND_COMMAND_DEFAULT_TIMEOUT : ℚ := 10

/-- Embedding of GrblConnection.send_command: refuse when the link is not
open, drain any residual queue entries, write the stripped line plus a
newline, then wait for the first queue entry produced by the arriving
lines. -/
def send_command (connected : Bool) (st : GrblState) (line : String)
    (arrivals : List String) : SendOutcome :=
  if !connected then { written := none, result := "error:not_connected" }
  else
    { written := some (pyStrip line ++ "\n"),
      result := wait_response { st with response_queue := [] } arrivals }

/-- Python abs on a coordinate deviation. -/
def absQ (q : ℚ) : ℚ := if q < 0 then -q else q

def START_POS_TOLERANCE : ℚ := 5
def START_POS_MARGIN : ℚ := 2

/-- Y work-area size used by the start gate:
float(self.grbl.settings.get(dollar-131, 400)). -/
def work_max_y (settings : List (String × String)) : ℚ :=
  match getSetting settings "$131" with
  | some s => (parseDecimal s).getD 0
  | none => 400

/-- The expected start corner in machine coordinates, as computed in
FileStreamer.start (the a component is unused there and held at 0). -/
def expected_corner (settings : List (String × String)) : Vec4 :=
  ⟨-START_POS_MARGIN, -(work_max_y settings - START_POS_MARGIN), -START_POS_MARGIN, 0⟩

/-- Outcome of FileStreamer.start: no file loaded, position-gate failure
(carrying the expected and observed machine coordinates that the error
message and file_error broadcast report), or streaming started with the
given cursor. -/
inductive StartResult
  | noFile
  | startError (expected observed : Vec4)
  | started (cursor : ℕ)
deriving Repr, DecidableEq

/-- Embedding of FileStreamer.start: refuse with no loaded lines; when
from_line is zero and the check is not skipped, compare mpos axis by axis
against the expected corner with strict greater-than tolerance tests; on
success set current_line to max 0 from_line and start. -/
def streamer_start (lines : List String) (settings : List (String × String))
    (mpos : Vec4) (from_line : ℤ) (skip_position_check : Bool) : StartResult :=
  if lines.isEmpty then .noFile
  else if !skip_position_check && from_line == 0 then
    let ec := expected_corner settings
    let dx := absQ (mpos.x - ec.x)
    let dy := absQ (mpos.y - ec.y)
    let dz := absQ (mpos.z - ec.z)
    if dx > START_POS_TOLERANCE ∨ dy > START_POS_TOLERANCE ∨ dz > START_POS_TOLERANCE then
      .startError ec mpos
    else
      .started (max 0 from_line).toNat
  else .started (max 0 from_line).toNat

/-- The key=value content FileStreamer._save_recovery writes: filename,
total line count, current cursor, wall-clock timestamp, and the machine Z
when connected. -/
structure RecoveryRecord where
  file : String
  total : ℕ
  current : ℕ
  timestamp : String
  mpos_z : Option ℚ
deriving Repr, DecidableEq

/-- Filesystem operations a persistence routine performs, for comparing
the source's write path with the write-temp-then-rename discipline. -/
inductive FsOp
  | write (path : String) (rec : RecoveryRecord)
  | rename (src dst : String)
deriving Repr, DecidableEq

def FsOp.isRename : FsOp → Bool
  | .rename _ _ => true
  | _ => false

/-- Embedding of FileStreamer._save_recovery: one direct open-and-write of
the recovery file itself (the source opens self.recovery_file with mode w
and writes the record; there is no temp file and no rename). -/
def save_recovery (recovery_file filename : String) (total current : ℕ)
    (timestamp : String) (connected : Bool) (mposZ : ℚ) : List FsOp :=
  [FsOp.write recovery_file
    { file := filename, total := total, current := current, timestamp := timestamp,
      mpos_z := if connected then some mposZ else none }]

/-- One polling observation inside MacroEngine._wait_idle: the cancel flag
and the machine state string at that poll instant. -/
structure WObs where
  cancel : Bool
  state : String
deriving Repr, DecidableEq

inductive WaitIdleResult
  | success (k : ℕ)
  | cancelled
  | timedOut (lastState : String)
deriving Repr, DecidableEq

/-- Phase one of _wait_idle (up to two seconds of 50 ms polls, here fuel
n): on cancel raise, on a state other than Idle break to phase two at the
current instant; when the window expires, fall through to phase two (the
source does not fail here). -/
def wait_leave_idle (obs : ℕ → WObs) : ℕ → ℕ → Option ℕ
  | 0, k => some k
  | n + 1, k =>
    if (obs k).cancel then none
    else if (obs k).state ≠ "Idle" then some k
    else wait_leave_idle obs n (k + 1)

/-- Phase two of _wait_idle (100 ms polls until the deadline, here fuel
n): on cancel raise, on Idle return success at that instant; at the
deadline raise the timeout error carrying the state observed then. -/
def wait_become_idle (obs : ℕ → WObs) : ℕ → ℕ → WaitIdleResult
  | 0, k => .timedOut (obs k).state
  | n + 1, k =>
    if (obs k).cancel then .cancelled
    else if (obs k).state == "Idle" then .success k
    else wait_become_idle obs n (k + 1)

/-- Embedding of MacroEngine._wait_idle over a discrete trace of poll
observations; n1 and n2 are the poll budgets of the two phases. -/
def wait_idle (obs : ℕ → WObs) (n1 n2 : ℕ) : WaitIdleResult :=
  match wait_leave_idle obs n1 0 with
  | none => .cancelled
  | some k => wait_become_idle obs n2 k

/-- The cancel_flag and continue_event of MacroEngine. -/
structure MacroFlags where
  cancel_flag : Bool
  continue_event : Bool
deriving Repr, DecidableEq

/-- Embedding of MacroEngine.cancel: set the flag and set the event. -/
def MacroEngine.cancel (_f : MacroFlags) : MacroFlags :=
  { cancel_flag := true, continue_event := true }

/-- Embedding of MacroEngine.continue_macro: set the event only. -/
def MacroEngine.continueEvent (f : MacroFlags) : MacroFlags :=
  { f with continue_event := true }

/-- Embedding of MacroEngine._wait_for_continue: re-raise on a cancel flag
seen before sleeping or on the one seen on wake after the event fires. -/
def wait_for_continue (cancelBefore cancelAtWake : Bool) : Option String :=
  if cancelBefore then some "Macro cancelled"
  else if cancelAtWake then some "Macro cancelled"
  else none

/-- Protocol commands the tool-change macro sends; fixed lines are kept as
literal text, lines that interpolate live coordinates carry them as
fields. -/
inductive Cmd
  | lit (s : String)
  | g53Goto (x y z : ℚ)
  | setWorkZ (z : ℚ)
  | goXY (x y : ℚ)
  | goZ (z : ℚ)
deriving Repr, DecidableEq

/-- Inputs the tool-change macro reads from the engine and the live
machine state, in read order: the SetZ completion flag and stored probe Z,
the start work position, the work Z after the raise to safe Z, the G28
position, and the machine Z observed after the slow probe. -/
structure TCInput where
  set_z_done : Bool
  probe_work_z : Option ℚ
  startW : Vec4
  safe_wpos_z : ℚ
  g28 : Vec4
  mpos_z_probe : ℚ
deriving Repr, DecidableEq

/-- What a tool-change run leaves behind: the machine commands it sent,
the stored probe_work_z afterwards, and the reported error if any. -/
structure TCOutput where
  cmds : List Cmd
  probe_work_z : Option ℚ
  error : Option String
deriving Repr, DecidableEq

/-- Embedding of the tool_change macro script (src/macros/tool_change.py;
run_tool_change in macros.py issues the same command sequence).  The
precondition check comes before any machine command; the success path is
the straight-line command list with the offset arithmetic of the source. -/
def tool_change_script (inp : TCInput) : TCOutput :=
  if !inp.set_z_done || inp.probe_work_z.isNone then
    { cmds := [], probe_work_z := inp.probe_work_z, error := some "SetZ must be run first" }
  else
    let pwz := inp.probe_work_z.getD 0
    let offset_to_safe := inp.safe_wpos_z - inp.startW.z
    let tool_offset := pwz - inp.mpos_z_probe
    let restore_z := inp.startW.z + offset_to_safe + tool_offset
    { cmds :=
        [ Cmd.lit "G53 G0 Z-1",
          Cmd.lit "G53 G0 X-2 Y-418",
          Cmd.setWorkZ 0,
          Cmd.g53Goto inp.g28.x inp.g28.y inp.g28.z,
          Cmd.lit "G90",
          Cmd.lit "G38.2 Z-78 F600",
          Cmd.lit "G91",
          Cmd.lit "G0 Z2",
          Cmd.lit "G38.2 Z-4 F10",
          Cmd.lit "G90",
          Cmd.lit "G53 G0 Z-1",
          Cmd.setWorkZ restore_z,
          Cmd.goXY inp.startW.x inp.startW.y,
          Cmd.goZ inp.startW.z ],
      probe_work_z := some inp.mpos_z_probe,
      error := none }

/-- One step of the run_tool_change coroutine after the M0 wake: a command
send (the source sends with no cancel check), a wait-idle suspension (the
first place the cancel flag is re-read), or a log line. -/
inductive MStep
  | send (c : Cmd)
  | waitIdle
  | logStep
deriving Repr, DecidableEq

/-- Oracle outcome for one wait-idle suspension when not cancelled. -/
inductive WOut
  | ok
  | timeout
deriving Repr, DecidableEq

/-- Run a list of macro steps under a fixed cancel flag: sends always
issue their command; a wait-idle raises the cancellation error when the
flag is set (its first poll checks the flag), otherwise consumes one
oracle outcome.  Returns the commands issued before termination and the
error, if any, that ended the run. -/
def exec_msteps (cancel : Bool) : List WOut → List MStep → List Cmd × Option String
  | _, [] => ([], none)
  | outs, .logStep :: rest => exec_msteps cancel outs rest
  | outs, .send c :: rest =>
    let r := exec_msteps cancel outs rest
    (c :: r.1, r.2)
  | outs, .waitIdle :: rest =>
    if cancel then ([], some "Macro cancelled")
    else
      match outs with
      | [] => ([], some "Timeout waiting for Idle")
      | .ok :: outs2 => exec_msteps cancel outs2 rest
      | .timeout :: _ => ([], some "Timeout waiting for Idle")

/-- The continuation of MacroEngine.run_tool_change from the statement
after the M0 continue_event.wait() wake, as a step list: the work-Z zero
and the G53 move to the G28 position are sent before the first wait-idle,
which is the first point that re-reads the cancel flag. -/
def tool_change_resume_steps (g28 start : Vec4) (offset_to_safe pwz mpos_z_probe : ℚ) :
    List MStep :=
  [ MStep.logStep,
    MStep.send (Cmd.setWorkZ 0),
    MStep.logStep,
    MStep.send (Cmd.g53Goto g28.x g28.y g28.z),
    MStep.waitIdle,
    MStep.send (Cmd.lit "G90"),
    MStep.send (Cmd.lit "G38.2 Z-78 F600"),
    MStep.waitIdle,
    MStep.send (Cmd.lit "G91"),
    MStep.send (Cmd.lit "G0 Z2"),
    MStep.waitIdle,
    MStep.send (Cmd.lit "G38.2 Z-4 F10"),
    MStep.waitIdle,
    MStep.send (Cmd.lit "G90"),
    MStep.logStep,
    MStep.send (Cmd.lit "G53 G0 Z-1"),
    MStep.waitIdle,
    MStep.send (Cmd.setWorkZ (start.z + offset_to_safe + (pwz - mpos_z_probe))),
    MStep.send (Cmd.goXY start.x start.y),
    MStep.waitIdle,
    MStep.send (Cmd.goZ start.z),
    MStep.waitIdle ]

/-- Word character of the regular-expression word boundary. -/
def isWordChar (c : Char) : Bool := c.isAlphanum || c == '_'

/-- Character class of the coordinate capture group: digits, minus, dot. -/
def isNumChar (c : Char) : Bool := c.isDigit || c == '-' || c == '.'

/-- Case-insensitive character comparison. -/
def upperEq (a b : Char) : Bool := a.toUpper == b.toUpper

/-- Search for the first axis letter followed by at least one coordinate
character and return the maximal capture, as re.search of an axis letter
with a nonempty greedy capture group does. -/
def findAxisNum (ax : Char) : List Char → Option (List Char)
  | [] => none
  | c :: cs =>
    if upperEq c ax then
      let run := cs.takeWhile isNumChar
      if run.isEmpty then findAxisNum ax cs else some run
    else findAxisNum ax cs

/-- Case-insensitive literal prefix match. -/
def prefixMatchCI : List Char → List Char → Bool
  | [], _ => true
  | _ :: _, [] => false
  | p :: ps, c :: cs => upperEq p c && prefixMatchCI ps cs

/-- A word boundary holds next to this neighbouring character. -/
def boundaryOk : Option Char → Bool
  | none => true
  | some c => !isWordChar c

/-- Search for a whole word (boundary on both sides) case-insensitively;
prev is the character just before the current position. -/
def wordSearchAux (pat : List Char) : Option Char → List Char → Bool
  | prev, [] => boundaryOk prev && prefixMatchCI pat [] && true
  | prev, c :: cs =>
    (boundaryOk prev && prefixMatchCI pat (c :: cs) &&
      boundaryOk (((c :: cs).drop pat.length).head?)) ||
    wordSearchAux pat (some c) cs

/-- Embedding of re.search of a word-bounded literal, case-insensitive. -/
def containsWord (pat : String) (l : List Char) : Bool :=
  wordSearchAux pat.toList none l

/-- Embedding of re.match of G, zero or more zeros, 1, word boundary (the
check_collisions test for a cutting move), anchored at the line start. -/
def matchG1Start : List Char → Bool
  | [] => false
  | c :: cs =>
    upperEq c 'G' &&
      (match cs.dropWhile (fun x => x == '0') with
       | '1' :: rest => boundaryOk rest.head?
       | _ => false)

/-- Python line.split on semicolon taking the head, then strip, as a
character list. -/
def stripComment (s : String) : List Char :=
  pyStripList (s.toList.takeWhile (fun c => c ≠ ';'))

/-- Position and G90/G91 mode tracked line by line by check_collisions. -/
structure CCState where
  x : ℚ
  y : ℚ
  z : ℚ
  absolute_mode : Bool
deriving Repr, DecidableEq

def CCState.initial : CCState := ⟨0, 0, 0, true⟩

/-- Update one axis from the first axis-letter capture on the line:
absolute assignment in G90 mode, incremental otherwise. -/
def axisUpdate (absolute : Bool) (cur : ℚ) (cs : List Char) (ax : Char) : ℚ :=
  match findAxisNum ax cs with
  | some run =>
    let v := (parseDecimal (String.mk run)).getD 0
    if absolute then v else cur + v
  | none => cur

/-- Per-line tracking step of check_collisions: first the G90/G91 mode
flags, then the three axis words, applied with the updated mode. -/
def ccUpdate (st : CCState) (clean : List Char) : CCState :=
  let mode1 := if containsWord "G90" clean then true else st.absolute_mode
  let mode := if containsWord "G91" clean then false else mode1
  { x := axisUpdate mode st.x clean 'X',
    y := axisUpdate mode st.y clean 'Y',
    z := axisUpdate mode st.z clean 'Z',
    absolute_mode := mode }

/-- Python round(q, 3) with round-half-to-even ties, on exact rationals. -/
def roundHalfEven (q : ℚ) : ℤ :=
  let f := ⌊q⌋
  let r := q - (f : ℚ)
  if r < 1 / 2 then f
  else if 1 / 2 < r then f + 1
  else if f % 2 == 0 then f else f + 1

def round3 (q : ℚ) : ℚ := ((roundHalfEven (q * 1000) : ℤ) : ℚ) / 1000

/-- A fixture as check_collisions reads it: dict keys x, y, z (top) and
radius. -/
structure CCFixture where
  x : ℚ
  y : ℚ
  z : ℚ
  radius : ℚ
deriving Repr, DecidableEq

/-- One reported collision: line number, the tracked point rounded to
three decimals, and the fixture index. -/
structure CollisionRec where
  line : ℕ
  x : ℚ
  y : ℚ
  z : ℚ
  fixture_index : ℕ
deriving Repr, DecidableEq

/-- The collision test of check_collisions: the source compares
sqrt of the squared XY distance strictly below the radius and the tracked
z at most the fixture top; over the rationals the square-root comparison
is encoded by its exact equivalent, positive radius and squared distance
below the squared radius. -/
def insideFixture (st : CCState) (f : CCFixture) : Prop :=
  0 < f.radius ∧ (st.x - f.x) ^ 2 + (st.y - f.y) ^ 2 < f.radius ^ 2 ∧ st.z ≤ f.z

instance (st : CCState) (f : CCFixture) : Decidable (insideFixture st f) := by
  unfold insideFixture; infer_instance

/-- The collisions one checked line contributes, over the enumerated
fixture list. -/
def ccLineCollisions (fixtures : List CCFixture) (st : CCState) (ln : ℕ) :
    List CollisionRec :=
  fixtures.enum.filterMap (fun p =>
    if insideFixture st p.2 then
      some { line := ln, x := round3 st.x, y := round3 st.y, z := round3 st.z,
             fixture_index := p.1 }
    else none)

/-- Main loop of check_collisions: line numbers count every line; empty
lines after comment stripping are skipped without a state change; every
other line updates the tracked state, and only lines matching the
anchored G1 test are checked against the fixtures. -/
def check_collisions_go (fixtures : List CCFixture) :
    CCState → ℕ → List String → List CollisionRec
  | _, _, [] => []
  | st, ln, l :: rest =>
    let clean := stripComment l
    if clean.isEmpty then check_collisions_go fixtures st (ln + 1) rest
    else
      let st2 := ccUpdate st clean
      (if matchG1Start clean then ccLineCollisions fixtures st2 ln else []) ++
        check_collisions_go fixtures st2 (ln + 1) rest

/-- Embedding of MacroEngine.check_collisions over the loaded program
lines and the fixture list (empty program or empty registry return
nothing). -/
def check_collisions (lines : List String) (fixtures : List CCFixture) :
    List CollisionRec :=
  if lines.isEmpty || fixtures.isEmpty then []
  else check_collisions_go fixtures CCState.initial 1 lines

/-- One tracking step viewed as a fold: skip lines that strip to empty,
update the state otherwise. -/
def ccFoldStep (st : CCState) (l : String) : CCState :=
  let clean := stripComment l
  if clean.isEmpty then st else ccUpdate st clean

/-- The tracked state after the first n program lines. -/
def ccStateAfter (lines : List String) (n : ℕ) : CCState :=
  List.foldl ccFoldStep CCState.initial (lines.take n)

/-- A line that check_collisions tests against the fixtures. -/
def checkedLine (l : String) : Bool :=
  let clean := stripComment l
  !clean.isEmpty && matchG1Start clean

/-- Per-line restatement of the collision check: each checked line i
contributes the fixtures containing the point tracked after lines one
through i, at line number i plus one. -/
def spec_check_collisions (lines : List String) (fixtures : List CCFixture) :
    List CollisionRec :=
  if lines.isEmpty || fixtures.isEmpty then []
  else
    (List.range lines.length).flatMap (fun i =>
      if checkedLine (lines.getD i "") then
        ccLineCollisions fixtures (ccStateAfter lines (i + 1)) (i + 1)
      else [])

/-- Modelled from the spec: the collision semantics the specification
states for claim comparison: translate the tracked work point to machine
coordinates by adding the cached wco, and test it against the fixture
cylinder in machine coordinates. -/
def specMachineInside (wco : Vec4) (st : CCState) (f : CCFixture) : Prop :=
  (st.x + wco.x - f.x) ^ 2 + (st.y + wco.y - f.y) ^ 2 < f.radius ^ 2 ∧
    st.z + wco.z ≤ f.z

instance (wco : Vec4) (st : CCState) (f : CCFixture) :
    Decidable (specMachineInside wco st f) := by
  unfold specMachineInside; infer_instance

/-! Theorems. -/

theorem handle_line_queue (st : GrblState) (l : String) :
    (handle_line st l).1.response_queue =
      st.response_queue ++ (if isTerminator l then [termEntry l] else []) := by
  unfold handle_line isTerminator termEntry
  split_ifs <;> (try rcases hpr : parsePRB l with _ | pr) <;> simp_all

theorem wait_response_spec :
    ∀ (arrivals : List String) (st : GrblState), st.response_queue = [] →
      wait_response st arrivals =
        (match arrivals.find? isTerminator with
         | some t => t
         | none => "error:timeout") := by
  intro arrivals
  induction arrivals with
  | nil => intro st _; rfl
  | cons l rest ih =>
    intro st h
    have hq := handle_line_queue st l
    rw [h, List.nil_append] at hq
    by_cases ht : isTerminator l
    · simp only [wait_response, ht, if_true] at hq ⊢
      rw [hq]
      simp [List.find?_cons, ht, termEntry]
    · simp only [wait_response, ht, if_false] at hq ⊢
      rw [hq]
      simp only [List.find?_cons]
      rw [ih _ hq]
      simp [ht]

/-- C1: while connected, send_command drains the residual response queue,
writes the stripped line with a trailing newline, and is completed by the
first ok or error line the parser delivers after the write (so its result
does not depend on the residual queue and asynchronous lines never
complete it); with no terminator among the arrivals the deadline expires
with the timeout result, and with the link closed nothing is written and
the not-connected result returns; every result is ok or an
error-prefixed string. -/
theorem send_command_first_terminator (connected : Bool) (st : GrblState)
    (line : String) (arrivals : List String) :
    send_command connected st line arrivals =
      (if connected then
        { written := some (pyStrip line ++ "\n"),
          result := match arrivals.find? isTerminator with
                    | some t => t
                    | none => "error:timeout" }
       else { written := none, result := "error:not_connected" }) ∧
    ((send_command connected st line arrivals).result = "ok" ∨
      strStartsWith (send_command connected st line arrivals).result "error:" = true) := by
  have hmain : send_command connected st line arrivals =
      (if connected then
        { written := some (pyStrip line ++ "\n"),
          result := match arrivals.find? isTerminator with
                    | some t => t
                    | none => "error:timeout" }
       else { written := none, result := "error:not_connected" }) := by
    unfold send_command
    cases connected with
    | false => simp
    | true =>
      simp only [Bool.not_true, Bool.false_eq_true, if_false, if_true]
      rw [wait_response_spec arrivals { st with response_queue := [] } rfl]
  refine ⟨hmain, ?_⟩
  rw [hmain]
  cases connected with
  | false =>
    right
    show strStartsWith "error:not_connected" "error:" = true
    decide
  | true =>
    rw [if_pos rfl]
    rcases hf : arrivals.find? isTerminator with _ | t
    · right
      show strStartsWith "error:timeout" "error:" = true
      decide
    · have ht := List.find?_some hf
      unfold isTerminator at ht
      simp only [Bool.and_eq_true, Bool.or_eq_true, beq_iff_eq] at ht
      rcases ht.2 with h | h
      · left; simpa using h
      · right; simpa using h

theorem parse_status_field_inv (acc : MachineStatus × Vec4) (part : String)
    (h : wposInv acc.1 acc.2) :
    wposInv (parse_status_field acc part).1 (parse_status_field acc part).2 := by
  unfold parse_status_field wposInv at *
  split_ifs <;> simp_all

theorem parse_status_field_mpos (acc : MachineStatus × Vec4) (part : String)
    (h : strStartsWith part "MPos:" = false) :
    (parse_status_field acc part).1.mpos = acc.1.mpos := by
  unfold parse_status_field
  split_ifs <;> simp_all

theorem foldl_status_field_inv :
    ∀ (parts : List String) (acc : MachineStatus × Vec4), wposInv acc.1 acc.2 →
      wposInv (parts.foldl parse_status_field acc).1 (parts.foldl parse_status_field acc).2 := by
  intro parts
  induction parts with
  | nil => intro acc h; simpa using h
  | cons p rest ih =>
    intro acc h
    simp only [List.foldl_cons]
    exact ih _ (parse_status_field_inv acc p h)

theorem foldl_status_field_mpos :
    ∀ (parts : List String) (acc : MachineStatus × Vec4),
      parts.all (fun p => !(strStartsWith p "MPos:")) = true →
      (parts.foldl parse_status_field acc).1.mpos = acc.1.mpos := by
  intro parts
  induction parts with
  | nil => intro acc _; simp
  | cons p rest ih =>
    intro acc h
    simp only [List.all_cons, Bool.and_eq_true, Bool.not_eq_eq_eq_not, Bool.not_true] at h
    simp only [List.foldl_cons]
    rw [ih _ (by simpa using h.2), parse_status_field_mpos acc p h.1]

/-- C2 (amended): absorbing any status line preserves the componentwise
equality wpos = mpos - wco of machine state and cached offset, because
wpos is recomputed whenever an MPos or a WCO field is parsed; a status
report carrying no MPos field leaves mpos unchanged (wpos itself can
still move when the report carries a WCO field); and missing axes in a
coordinate field default to zero. -/
theorem parseVec4_a_default (s : String)
    (h : (strSplitOnChar ',' s).length ≤ 3) : (parseVec4 s).a = 0 := by
  have h3 : (strSplitOnChar ',' s)[3]? = none := List.getElem?_eq_none (by omega)
  simp [parseVec4, qAt, h3]

theorem parseVec4_defaults_of_one (s : String)
    (h : (strSplitOnChar ',' s).length = 1) :
    (parseVec4 s).y = 0 ∧ (parseVec4 s).z = 0 ∧ (parseVec4 s).a = 0 := by
  have h1 : (strSplitOnChar ',' s)[1]? = none := List.getElem?_eq_none (by omega)
  have h2 : (strSplitOnChar ',' s)[2]? = none := List.getElem?_eq_none (by omega)
  have h3 : (strSplitOnChar ',' s)[3]? = none := List.getElem?_eq_none (by omega)
  refine ⟨?_, ?_, ?_⟩ <;> simp [parseVec4, qAt, h1, h2, h3]

theorem parse_status_wpos_spec (ms : MachineStatus) (wco : Vec4) (line : String) :
    (wposInv ms wco →
      wposInv (parse_status ms wco line).1 (parse_status ms wco line).2) ∧
    ((statusParts line).all (fun p => !(strStartsWith p "MPos:")) = true →
      (parse_status ms wco line).1.mpos = ms.mpos) ∧
    (∀ s : String, (strSplitOnChar ',' s).length ≤ 3 → (parseVec4 s).a = 0) ∧
    (∀ s : String, (strSplitOnChar ',' s).length = 1 →
      (parseVec4 s).y = 0 ∧ (parseVec4 s).z = 0 ∧ (parseVec4 s).a = 0) := by
  refine ⟨?_, ?_, ?_, ?_⟩
  · intro h
    unfold parse_status
    exact foldl_status_field_inv _ _ (by simpa [wposInv] using h)
  · intro h
    unfold parse_status
    have htail : (statusParts line).tail.all (fun p => !(strStartsWith p "MPos:")) = true := by
      rcases hsp : statusParts line with _ | ⟨p, rest⟩
      · simp
      · rw [hsp] at h
        simp only [List.all_cons, Bool.and_eq_true] at h
        simpa using h.2
    simpa using foldl_status_field_mpos _ _ htail
  · exact parseVec4_a_default
  · exact parseVec4_defaults_of_one

/-- C2 witness: a concrete status line with WCO and feed fields but no
MPos field, absorbed from the initial state. -/
theorem parse_status_wpos_spec_witness :
    wposInv (parse_status MachineStatus.initial Vec4.zero "<Run|WCO:1.5,0,0,0|F:100>").1
        (parse_status MachineStatus.initial Vec4.zero "<Run|WCO:1.5,0,0,0|F:100>").2 ∧
      (parse_status MachineStatus.initial Vec4.zero "<Run|WCO:1.5,0,0,0|F:100>").1.mpos =
        MachineStatus.initial.mpos ∧
      (parseVec4 "7").a = 0 :=
  ⟨(parse_status_wpos_spec MachineStatus.initial Vec4.zero "<Run|WCO:1.5,0,0,0|F:100>").1
      (by decide),
   (parse_status_wpos_spec MachineStatus.initial Vec4.zero "<Run|WCO:1.5,0,0,0|F:100>").2.1
      (by decide),
   ((parse_status_wpos_spec MachineStatus.initial Vec4.zero "<Run|WCO:1.5,0,0,0|F:100>").2.2.1
      "7" (by decide))⟩

/-- C2 counterexample: a status report with no MPos field does not leave
positions unchanged: a WCO-only report recomputes wpos, which moves. -/
theorem parse_status_no_mpos_moves_wpos :
    (statusParts "<Idle|WCO:1,0,0,0>").all (fun p => !(strStartsWith p "MPos:")) = true ∧
      (parse_status MachineStatus.initial Vec4.zero "<Idle|WCO:1,0,0,0>").1.wpos ≠
        MachineStatus.initial.wpos := by
  decide

/-- C3 (amended): every persisted RecoveryRecord is written by one direct
overwrite of the recovery file itself, with the filename, total, cursor,
timestamp and (when connected) machine Z of the streamer at that moment;
no temp file and no rename are involved, so the write is not atomic. -/
theorem save_recovery_direct_write (rf fn : String) (total current : ℕ)
    (ts : String) (conn : Bool) (mz : ℚ) :
    save_recovery rf fn total current ts conn mz =
      [FsOp.write rf
        { file := fn, total := total, current := current, timestamp := ts,
          mpos_z := if conn then some mz else none }] ∧
    (save_recovery rf fn total current ts conn mz).all (fun op => !op.isRename) = true := by
  constructor
  · rfl
  · unfold save_recovery
    simp [FsOp.isRename]

/-- C3 counterexample: a concrete recovery save performs a single direct
write of recovery.txt and no rename, so it is not the claimed
write-temp-file-then-rename sequence. -/
theorem save_recovery_no_rename :
    save_recovery "recovery.txt" "prog.nc" 100 47 "2026-10-12 00:00:00" true (-2) =
      [FsOp.write "recovery.txt"
        { file := "prog.nc", total := 100, current := 47,
          timestamp := "2026-10-12 00:00:00", mpos_z := some (-2) }] ∧
    ((save_recovery "recovery.txt" "prog.nc" 100 47 "2026-10-12 00:00:00" true
        (-2)).any (fun op => op.isRename)) = false := by
  decide

/-- C4: starting the streamer at line 0 without skip_position_check
applies the gate against the corner computed from setting 131: every
axis deviation at most the 5 mm tolerance (equality included) starts
streaming at cursor 0; any axis deviation beyond it reports the start
error carrying the expected and observed coordinates and does not start;
a positive from_line skips the gate entirely and starts at that cursor. -/
theorem streamer_start_gate (lines : List String) (settings : List (String × String))
    (mpos : Vec4) (skip : Bool) (fl : ℤ) (hne : lines ≠ []) :
    (streamer_start lines settings mpos 0 false =
      (if absQ (mpos.x - (expected_corner settings).x) ≤ START_POS_TOLERANCE ∧
          absQ (mpos.y - (expected_corner settings).y) ≤ START_POS_TOLERANCE ∧
          absQ (mpos.z - (expected_corner settings).z) ≤ START_POS_TOLERANCE
       then .started 0
       else .startError (expected_corner settings) mpos)) ∧
    (0 < fl → streamer_start lines settings mpos fl skip = .started fl.toNat) := by
  have hemp : lines.isEmpty = false := by
    cases lines with
    | nil => exact absurd rfl hne
    | cons a l => rfl
  constructor
  · unfold streamer_start
    rw [hemp]
    simp only [Bool.false_eq_true, if_false, Bool.not_false, Bool.true_and]
    rw [if_pos (by decide : ((0 : ℤ) == 0) = true)]
    simp only [gt_iff_lt, ← not_le, ← not_and_or, ite_not]
    rfl
  · intro hfl
    unfold streamer_start
    rw [hemp]
    simp only [Bool.false_eq_true, if_false]
    have hz : (!skip && fl == 0) = false := by
      have hne0 : (fl == 0) = false := by
        simp only [beq_eq_false_iff_ne, ne_eq]
        omega
      simp [hne0]
    rw [hz]
    simp only [Bool.false_eq_true, if_false]
    have hm : max 0 fl = fl := max_eq_right (le_of_lt hfl)
    rw [hm]

/-- C4 witness: with travel setting 400 the expected corner is
(-2, -398, -2); a deviation of exactly 5 mm on X is accepted, 5.001 mm is
rejected with the expected and observed coordinates, and a resume from
line 47 skips the gate. -/
theorem streamer_start_gate_witness :
    streamer_start ["G0 X0"] [("$131", "400")] ⟨3, -398, -2, 0⟩ 0 false = .started 0 ∧
    streamer_start ["G0 X0"] [("$131", "400")] ⟨3.001, -398, -2, 0⟩ 0 false =
      .startError ⟨-2, -398, -2, 0⟩ ⟨3.001, -398, -2, 0⟩ ∧
    streamer_start ["G0 X0"] [("$131", "400")] ⟨99, 99, 99, 0⟩ 47 true = .started 47 := by
  have h1 := (streamer_start_gate ["G0 X0"] [("$131", "400")] ⟨3, -398, -2, 0⟩ false 47
    (by decide)).1
  have h2 := (streamer_start_gate ["G0 X0"] [("$131", "400")] ⟨3.001, -398, -2, 0⟩ false 47
    (by decide)).1
  have h3 := (streamer_start_gate ["G0 X0"] [("$131", "400")] ⟨99, 99, 99, 0⟩ true 47
    (by decide)).2 (by decide)
  refine ⟨?_, ?_, h3⟩
  · rw [h1, if_pos (by decide)]
  · rw [h2, if_neg (by decide)]
    decide

/-- C10: for a loaded non-empty program and any negative from_line, the
streamer clamps the cursor to 0 and starts from line 0, and the
start-position gate is not applied, whatever the machine position and
settings are: no start error can be reported. -/
theorem streamer_start_negative_clamps (lines : List String)
    (settings : List (String × String)) (mpos : Vec4) (skip : Bool) (fl : ℤ)
    (hne : lines ≠ []) (hfl : fl < 0) :
    streamer_start lines settings mpos fl skip = .started 0 := by
  have hemp : lines.isEmpty = false := by
    cases lines with
    | nil => exact absurd rfl hne
    | cons a l => rfl
  unfold streamer_start
  rw [hemp]
  simp only [Bool.false_eq_true, if_false]
  have hz : (!skip && fl == 0) = false := by
    have hne0 : (fl == 0) = false := by
      simp only [beq_eq_false_iff_ne, ne_eq]
      omega
    simp [hne0]
  rw [hz]
  simp only [Bool.false_eq_true, if_false]
  have hm : max 0 fl = 0 := max_eq_left (le_of_lt hfl)
  rw [hm]
  rfl

/-- C10 witness: a one-line program started at from_line -5 from a wild
machine position starts at cursor 0 with no gate error. -/
theorem streamer_start_negative_clamps_witness :
    streamer_start ["G1 X0"] [] ⟨999, 999, 999, 0⟩ (-5) false = .started 0 :=
  streamer_start_negative_clamps ["G1 X0"] [] ⟨999, 999, 999, 0⟩ false (-5)
    (by decide) (by decide)


theorem wait_become_idle_success_state (obs : ℕ → WObs) :
    ∀ (n k j : ℕ), wait_become_idle obs n k = .success j → (obs j).state = "Idle" := by
  intro n
  induction n with
  | zero => intro k j h; simp [wait_become_idle] at h
  | succ m ih =>
    intro k j h
    unfold wait_become_idle at h
    split_ifs at h with hc hs
    · injection h with hkj
      subst hkj
      simpa using hs
    · exact ih (k + 1) j h

theorem wait_leave_idle_const_idle (obs : ℕ → WObs)
    (h : ∀ i, obs i = ⟨false, "Idle"⟩) :
    ∀ (n k : ℕ), wait_leave_idle obs n k = some (k + n) := by
  intro n
  induction n with
  | zero => intro k; simp [wait_leave_idle]
  | succ m ih =>
    intro k
    unfold wait_leave_idle
    rw [h k]
    simp only [Bool.false_eq_true, if_false, ne_eq, not_true_eq_false]
    rw [ih (k + 1)]
    exact congrArg some (by omega)

theorem wait_leave_idle_const (obs : ℕ → WObs) (st : String)
    (hst : st ≠ "Idle") (h : ∀ i, obs i = ⟨false, st⟩) :
    ∀ (n k : ℕ), wait_leave_idle obs n k = some k := by
  intro n k
  cases n with
  | zero => rfl
  | succ m =>
    unfold wait_leave_idle
    rw [h k]
    simp [hst]

theorem wait_become_idle_const (obs : ℕ → WObs) (st : String)
    (hst : st ≠ "Idle") (h : ∀ i, obs i = ⟨false, st⟩) :
    ∀ (n k : ℕ), wait_become_idle obs n k = .timedOut st := by
  intro n
  induction n with
  | zero => intro k; unfold wait_become_idle; rw [h k]
  | succ m ih =>
    intro k
    unfold wait_become_idle
    rw [h k]
    simp only [Bool.false_eq_true, if_false]
    rw [if_neg (by simpa using hst)]
    exact ih (k + 1)

/-- C5 (amended): wait-idle first waits up to 2 s for the state to leave
Idle; if that window expires with the state still Idle the macro does not
fail but falls through and returns success at once (the state being
Idle); it then waits for state Idle up to the remaining deadline and
fails with a timeout error carrying the last observed state only when
that deadline expires, or with a cancellation error when the cancel flag
is seen at a poll; whenever wait-idle returns successfully the state
observed at the returned poll instant is Idle. -/
theorem wait_idle_spec (obs : ℕ → WObs) (n1 n2 : ℕ) :
    (∀ k, wait_idle obs n1 n2 = .success k → (obs k).state = "Idle") ∧
    ((∀ i, obs i = ⟨false, "Idle"⟩) → 1 ≤ n2 →
      wait_idle obs n1 n2 = .success n1) ∧
    ((∀ i, obs i = ⟨false, "Run"⟩) → wait_idle obs n1 n2 = .timedOut "Run") ∧
    ((∀ i, (obs i).cancel = true) → 1 ≤ n1 → wait_idle obs n1 n2 = .cancelled) := by
  refine ⟨?_, ?_, ?_, ?_⟩
  · intro k h
    unfold wait_idle at h
    rcases hl : wait_leave_idle obs n1 0 with _ | j
    · rw [hl] at h; cases h
    · rw [hl] at h
      exact wait_become_idle_success_state obs n2 j k h
  · intro h hn2
    unfold wait_idle
    rw [wait_leave_idle_const_idle obs h n1 0]
    simp only [Nat.zero_add]
    rcases n2 with _ | m
    · omega
    · unfold wait_become_idle
      rw [h n1]
      simp
  · intro h
    unfold wait_idle
    rw [wait_leave_idle_const obs "Run" (by decide) h n1 0]
    exact wait_become_idle_const obs "Run" (by decide) h n2 0
  · intro h hn1
    unfold wait_idle
    rcases n1 with _ | m
    · omega
    · unfold wait_leave_idle
      rw [h 0]
      simp

/-- C5 witness: concrete poll traces instantiating each branch of the
amended wait-idle behaviour (40 phase-one polls, 300 phase-two polls). -/
theorem wait_idle_spec_witness :
    wait_idle (fun _ => ⟨false, "Idle"⟩) 40 300 = .success 40 ∧
    wait_idle (fun _ => ⟨false, "Run"⟩) 40 300 = .timedOut "Run" ∧
    wait_idle (fun _ => ⟨true, "Run"⟩) 40 300 = .cancelled ∧
    ((fun _ => (⟨false, "Idle"⟩ : WObs)) 40).state = "Idle" :=
  ⟨(wait_idle_spec (fun _ => ⟨false, "Idle"⟩) 40 300).2.1 (fun _ => rfl) (by decide),
   (wait_idle_spec (fun _ => ⟨false, "Run"⟩) 40 300).2.2.1 (fun _ => rfl),
   (wait_idle_spec (fun _ => ⟨true, "Run"⟩) 40 300).2.2.2 (fun _ => rfl) (by decide),
   (wait_idle_spec (fun _ => ⟨false, "Idle"⟩) 40 300).1 40
     ((wait_idle_spec (fun _ => ⟨false, "Idle"⟩) 40 300).2.1 (fun _ => rfl) (by decide))⟩

/-- C5 counterexample: with the machine reporting Idle at every poll and
no cancellation, phase one (40 polls, its whole 2 s bound) expires
without the state ever leaving Idle, yet wait-idle returns success at the
next poll instead of failing the macro as the claim states. -/
theorem wait_idle_phase1_expiry_succeeds :
    wait_idle (fun _ => ⟨false, "Idle"⟩) 40 300 = .success 40 ∧
    ((fun _ => (⟨false, "Idle"⟩ : WObs)) 39).state = "Idle" := by
  constructor
  · decide
  · rfl

/-- C7: when SetZ has not completed, the tool-change macro reports the
explanatory error and terminates with no machine command issued;
otherwise it runs to completion with no error, computes tool_offset as
the stored probe_work_z minus the machine Z observed after the slow
probe, stores that machine Z as the new probe_work_z, applies the work
offset command with Z = start_z + offset_to_safe + tool_offset, and then
restores XY and then Z to the saved start work coordinates as the final
two commands. -/
theorem tool_change_script_spec (inp : TCInput) :
    ((inp.set_z_done = false ∨ inp.probe_work_z = none) →
      (tool_change_script inp).error = some "SetZ must be run first" ∧
        (tool_change_script inp).cmds = [] ∧
        (tool_change_script inp).probe_work_z = inp.probe_work_z) ∧
    (∀ pwz : ℚ, inp.set_z_done = true → inp.probe_work_z = some pwz →
      (tool_change_script inp).error = none ∧
        (tool_change_script inp).probe_work_z = some inp.mpos_z_probe ∧
        (∃ pre : List Cmd,
          (tool_change_script inp).cmds =
            pre ++
              [Cmd.setWorkZ (inp.startW.z + (inp.safe_wpos_z - inp.startW.z) +
                  (pwz - inp.mpos_z_probe)),
               Cmd.goXY inp.startW.x inp.startW.y,
               Cmd.goZ inp.startW.z])) := by
  constructor
  · intro h
    unfold tool_change_script
    rw [if_pos ?hp]
    case hp =>
      rcases h with h | h
      · simp [h]
      · simp [h]
    exact ⟨rfl, rfl, rfl⟩
  · intro pwz hdone hpwz
    unfold tool_change_script
    rw [if_neg (by simp [hdone, hpwz])]
    refine ⟨rfl, rfl, ?_⟩
    refine ⟨[Cmd.lit "G53 G0 Z-1", Cmd.lit "G53 G0 X-2 Y-418", Cmd.setWorkZ 0,
      Cmd.g53Goto inp.g28.x inp.g28.y inp.g28.z, Cmd.lit "G90",
      Cmd.lit "G38.2 Z-78 F600", Cmd.lit "G91", Cmd.lit "G0 Z2",
      Cmd.lit "G38.2 Z-4 F10", Cmd.lit "G90", Cmd.lit "G53 G0 Z-1"], ?_⟩
    simp [hpwz]

/-- C7 witness: the scenario of the spec: probe_work_z 10, new slow-probe
machine Z 9.88 (0.120 lower), start work position (1, 2, 3), safe work Z
-1: the work offset command carries 3 + (-4) + 0.12 = -0.88, XY is
restored before Z, and probe_work_z becomes 9.88; and a run without SetZ
errors with no command. -/
theorem tool_change_script_spec_witness :
    (tool_change_script ⟨true, some 10, ⟨1, 2, 3, 0⟩, -1, ⟨5, 6, 7, 0⟩, 9.88⟩).error = none ∧
    (tool_change_script ⟨true, some 10, ⟨1, 2, 3, 0⟩, -1, ⟨5, 6, 7, 0⟩, 9.88⟩).probe_work_z =
      some 9.88 ∧
    (∃ pre : List Cmd,
      (tool_change_script ⟨true, some 10, ⟨1, 2, 3, 0⟩, -1, ⟨5, 6, 7, 0⟩, 9.88⟩).cmds =
        pre ++ [Cmd.setWorkZ (3 + (-1 - 3) + (10 - 9.88)), Cmd.goXY 1 2, Cmd.goZ 3]) ∧
    (tool_change_script ⟨false, none, ⟨1, 2, 3, 0⟩, -1, ⟨5, 6, 7, 0⟩, 9.88⟩).error =
      some "SetZ must be run first" ∧
    (tool_change_script ⟨false, none, ⟨1, 2, 3, 0⟩, -1, ⟨5, 6, 7, 0⟩, 9.88⟩).cmds = [] := by
  have hok := (tool_change_script_spec ⟨true, some 10, ⟨1, 2, 3, 0⟩, -1, ⟨5, 6, 7, 0⟩, 9.88⟩).2
    10 rfl rfl
  have hpre := (tool_change_script_spec ⟨false, none, ⟨1, 2, 3, 0⟩, -1, ⟨5, 6, 7, 0⟩, 9.88⟩).1
    (Or.inl rfl)
  exact ⟨hok.1, hok.2.1, hok.2.2, hpre.1, hpre.2.1⟩

/-- C8: absorbing a probe report line leaves every field of the
connection state unchanged; the parser only broadcasts the parsed probe
event.  The GrblConnection state has no last_probe field at all, so the
machine state cannot hold the most recent probe report for later readers
such as the X edge-probe macro (which dereferences grbl.last_probe). -/
theorem parse_probe_broadcast_only :
    handle_line GrblState.initial "[PRB:1.000,2.000,3.000,0.000:1]" =
      (GrblState.initial,
        [Msg.serialRead "[PRB:1.000,2.000,3.000,0.000:1]",
         Msg.probeMsg true ⟨1, 2, 3, 0⟩]) := by
  decide

/-- C9 (amended): cancel sets the cancel flag and sets the continue
event, releasing any pending wait-continue; the shared _wait_for_continue
primitive re-checks the flag on wake and raises the cancellation error;
but the inline M0 wait of run_tool_change does not re-check on wake: a
macro woken there by cancel still sends the work-Z zeroing command and
the G53 move to the G28 position before the first wait-idle poll raises
the cancellation error that terminates it. -/
theorem cancel_spec (f : MacroFlags) (b : Bool) (g28 start : Vec4)
    (ots pwz mz : ℚ) :
    (MacroEngine.cancel f).cancel_flag = true ∧
    (MacroEngine.cancel f).continue_event = true ∧
    wait_for_continue b true = some "Macro cancelled" ∧
    wait_for_continue true b = some "Macro cancelled" ∧
    exec_msteps true [] (tool_change_resume_steps g28 start ots pwz mz) =
      ([Cmd.setWorkZ 0, Cmd.g53Goto g28.x g28.y g28.z], some "Macro cancelled") := by
  refine ⟨rfl, rfl, ?_, rfl, rfl⟩
  cases b <;> rfl

/-- C9 counterexample: after cancel during the run_tool_change M0 wait,
the woken macro issues two further protocol commands (the claim says it
never issues one once it next wakes), and only then terminates with the
cancellation error. -/
theorem tool_change_resume_after_cancel_sends :
    (exec_msteps true [] (tool_change_resume_steps ⟨0, 0, 0, 0⟩ ⟨0, 0, 0, 0⟩ 0 0 0)).1 =
      [Cmd.setWorkZ 0, Cmd.g53Goto 0 0 0] ∧
    (exec_msteps true [] (tool_change_resume_steps ⟨0, 0, 0, 0⟩ ⟨0, 0, 0, 0⟩ 0 0 0)).1 ≠ [] ∧
    (exec_msteps true [] (tool_change_resume_steps ⟨0, 0, 0, 0⟩ ⟨0, 0, 0, 0⟩ 0 0 0)).2 =
      some "Macro cancelled" := by
  decide

theorem check_go_eq (fixtures : List CCFixture) :
    ∀ (lines : List String) (st : CCState) (ln : ℕ),
      check_collisions_go fixtures st ln lines =
        (List.range lines.length).flatMap (fun i =>
          if checkedLine (lines.getD i "") then
            ccLineCollisions fixtures (List.foldl ccFoldStep st (lines.take (i + 1))) (ln + i)
          else []) := by
  intro lines
  induction lines with
  | nil => intro st ln; simp [check_collisions_go]
  | cons l rest ih =>
    intro st ln
    have hstep : check_collisions_go fixtures st ln (l :: rest) =
        (if checkedLine l then ccLineCollisions fixtures (ccFoldStep st l) ln else []) ++
          check_collisions_go fixtures (ccFoldStep st l) (ln + 1) rest := by
      rw [check_collisions_go]
      unfold checkedLine ccFoldStep
      by_cases hcl : (stripComment l).isEmpty
      · simp [hcl]
      · simp [hcl]
    rw [hstep, ih (ccFoldStep st l) (ln + 1)]
    conv_rhs => rw [List.length_cons, List.range_succ_eq_map, List.flatMap_cons,
      List.flatMap_map]
    congr 1
    refine congrArg _ (funext fun i => ?_)
    rw [show ln + (i + 1) = ln + 1 + i from by omega]
    simp only [Nat.succ_eq_add_one, List.getD_cons_succ, List.take_succ_cons,
      List.foldl_cons]

theorem ccLineCollisions_mem (fixtures : List CCFixture) (st : CCState) (ln : ℕ)
    (c : CollisionRec) :
    c ∈ ccLineCollisions fixtures st ln ↔
      ∃ i f, fixtures[i]? = some f ∧ insideFixture st f ∧
        c = { line := ln, x := round3 st.x, y := round3 st.y, z := round3 st.z,
              fixture_index := i } := by
  unfold ccLineCollisions
  simp only [List.mem_filterMap]
  constructor
  · rintro ⟨⟨i, f⟩, hmem, hf⟩
    rw [List.mk_mem_enum_iff_getElem?] at hmem
    split_ifs at hf with hin
    · exact ⟨i, f, hmem, hin, (Option.some.inj hf).symm⟩
  · rintro ⟨i, f, hget, hin, hc⟩
    exact ⟨(i, f), List.mk_mem_enum_iff_getElem?.mpr hget, by simp [hin, hc]⟩

/-- C6 (amended): check_collisions tracks G90/G91 mode and position line
by line over the loaded program (updating the position from every X/Y/Z
word), checks only lines whose comment-stripped text begins with G1 (a G1
preceded by other words on the line, such as G90 G1, is not checked), and
compares the tracked program point directly against each fixture with no
work-to-machine translation (the cached wco is never consulted): a
collision is flagged for fixture i exactly when the tracked point
satisfies (x - fx)^2 + (y - fy)^2 < radius^2 (with positive radius) and
z <= fz, and each flag reports the line number, the point rounded to
three decimals, and the fixture index. -/
theorem check_collisions_spec (lines : List String) (fixtures : List CCFixture) :
    check_collisions lines fixtures = spec_check_collisions lines fixtures ∧
    (∀ st ln c, c ∈ ccLineCollisions fixtures st ln ↔
      ∃ i f, fixtures[i]? = some f ∧ insideFixture st f ∧
        c = { line := ln, x := round3 st.x, y := round3 st.y, z := round3 st.z,
              fixture_index := i }) := by
  constructor
  · unfold check_collisions spec_check_collisions
    by_cases hg : lines.isEmpty || fixtures.isEmpty
    · rw [if_pos hg, if_pos hg]
    · rw [if_neg hg, if_neg hg]
      rw [check_go_eq fixtures lines CCState.initial 1]
      refine congrArg _ (funext fun i => ?_)
      rw [show (1 : ℕ) + i = i + 1 from by omega]
      rfl
  · exact ccLineCollisions_mem fixtures

/-- C6 counterexample: with the cached wco equal to (20, 0, 0, 0) and a
fixture cylinder at machine (50, 50), top 10, radius 10, the program line
G1 X45 Y50 Z5 F500 is flagged although its machine-frame point (65, 50, 5)
is outside the cylinder: check_collisions performs no work-to-machine
translation.  And the same move written as G90 G1 X45 Y50 Z5 F500 is not
checked at all, although the tracked point is inside the cylinder: only
lines beginning with G1 are considered. -/
theorem check_collisions_wco_counterexample :
    check_collisions ["G1 X45 Y50 Z5 F500"] [⟨50, 50, 10, 10⟩] =
      [{ line := 1, x := 45, y := 50, z := 5, fixture_index := 0 }] ∧
    ¬ specMachineInside ⟨20, 0, 0, 0⟩ (ccStateAfter ["G1 X45 Y50 Z5 F500"] 1)
        ⟨50, 50, 10, 10⟩ ∧
    check_collisions ["G90 G1 X45 Y50 Z5 F500"] [⟨50, 50, 10, 10⟩] = [] ∧
    insideFixture (ccStateAfter ["G90 G1 X45 Y50 Z5 F500"] 1) ⟨50, 50, 10, 10⟩ := by
  decide
